import Mathlib

/-!
Shallow embedding of the `vertigo` wire-protocol client (Go).

Byte streams and byte strings are `List Nat` (one `Nat` per byte).
Go's `(value, error)` return idiom is embedded as `DecodeResult`:
`ok` for a nil error, `err` for a non-nil error (every caller in the
source checks the error before using the value).  A Go slice expression
`body[off:]` panics when `off > len(body)`; that possibility is kept
explicit as the `oob` outcome, so that totality/no-out-of-bounds claims
are real theorems rather than artifacts of the embedding.
-/

namespace Vertigo

/-- Byte strings (Go `[]byte` / `string`): one `Nat` per byte. -/
abbrev ByteStr := List Nat

/-- Outcome of a Go decode step: `ok` = nil error, `err` = returned error
value (its message string), `oob` = a slice-bounds runtime panic. -/
inductive DecodeResult (α : Type) where
  | ok (a : α)
  | err (e : String)
  | oob
deriving DecidableEq, Repr

/-- Returns `true` iff the step did not hit an out-of-bounds slice access. -/
def DecodeResult.safe {α : Type} : DecodeResult α → Bool
  | .oob => false
  | _ => true

/-- Go slice expression `p[off:]`: defined when `off ≤ len(p)`, a
runtime panic (`oob`) otherwise. -/
def goDrop (p : ByteStr) (off : Nat) : DecodeResult ByteStr :=
  if off ≤ p.length then .ok (p.drop off) else .oob

/-- Go slice expression `p[lo:hi]`: defined when `lo ≤ hi ≤ len(p)`. -/
def goSlice (p : ByteStr) (lo hi : Nat) : DecodeResult ByteStr :=
  if lo ≤ hi ∧ hi ≤ p.length then .ok ((p.drop lo).take (hi - lo)) else .oob

/-- Embeds `unpackUint32` (resultset.go): big-endian 4-byte read.  The Go code
indexes `p[0] .. p[3]`; every caller guarantees at least 4 bytes
(`decodeUint32` checks the length first, `receiveMessage` passes exactly
4 header bytes), so the indexing is embedded with a 0 default. -/
def unpackUint32 (p : ByteStr) : Nat :=
  p.getD 0 0 * 2 ^ 24 + p.getD 1 0 * 2 ^ 16 + p.getD 2 0 * 2 ^ 8 + p.getD 3 0

/-- Embeds `unpackUint16` (resultset.go): big-endian 2-byte read. -/
def unpackUint16 (p : ByteStr) : Nat :=
  p.getD 0 0 * 2 ^ 8 + p.getD 1 0

/-- Embeds `decodeUint32` (resultset.go): errors unless at least 4 bytes remain. -/
def decodeUint32 (p : ByteStr) : DecodeResult Nat :=
  if p.length < 4 then .err "decodeUint32: A buffer should be at least 4 bytes long"
  else .ok (unpackUint32 p)

/-- Embeds `decodeUint16` (resultset.go): errors unless at least 2 bytes remain. -/
def decodeUint16 (p : ByteStr) : DecodeResult Nat :=
  if p.length < 2 then .err "decodeUint16: A buffer should be at least 2 bytes long"
  else .ok (unpackUint16 p)

/-- Embeds `decodeUint8` (resultset.go): errors unless at least 1 byte remains. -/
def decodeUint8 (p : ByteStr) : DecodeResult Nat :=
  if p.length < 1 then .err "decodeUint8: A buffer should be at least 1 bytes long"
  else .ok (p.getD 0 0)

/-- Embeds `decodeCString` (resultset.go): scan for the first 0 byte and return
the bytes before it; error when no terminator occurs in `p`. -/
def decodeCString : ByteStr → DecodeResult ByteStr
  | [] => .err "decodeCString: delimeter not found"
  | b :: rest =>
    if b = 0 then .ok []
    else
      match decodeCString rest with
      | .ok s => .ok (b :: s)
      | .err e => .err e
      | .oob => .oob

/-- Column descriptor (`Field`, resultset.go). -/
structure Field where
  Name : ByteStr
  TableOID : Nat
  AttributeNumber : Nat
  DataTypeOID : Nat
  DataTypeSize : Nat
  TypeModifier : Nat
  FormatCode : Nat
deriving DecidableEq, Repr

/-- The closed set of incoming messages (the Go code uses one struct per
message behind the `IncomingMessage` interface; here they are the
constructors of one sum type).  `errorResponse` keeps the parsed
`(fieldType, string)` assignments in order; map lookups take the last
binding, mirroring Go map overwrite semantics. -/
inductive IncomingMessage where
  | authenticationRequest (AuthCode : Nat) (Salt : ByteStr)
  | readyForQuery (TransactionStatus : Nat)
  | errorResponse (Fields : List (Nat × ByteStr))
  | emptyQuery
  | parameterStatus (Name Value : ByteStr)
  | backendKeyData (Pid Key : Nat)
  | commandComplete (Result : ByteStr)
  | rowDescription (Fields : List Field)
  | dataRow (Values : List (Option ByteStr))
deriving DecidableEq, Repr

/-- Loop of `parseErrorResponseMessage` (resultset.go): read a 1-byte
field type at `off`; 0 terminates; otherwise read a C string and
continue at `off + 1 + len(str) + 1`.  The Go slice `body[offset:]` is
embedded via explicit bounds tests (`oob` on violation). -/
def errFields (body : ByteStr) (off : Nat) : DecodeResult (List (Nat × ByteStr)) :=
  if hoff : off ≤ body.length then
    match hft : decodeUint8 (body.drop off) with
    | .err e => .err e
    | .oob => .oob
    | .ok fieldType =>
      if fieldType = 0 then .ok []
      else
        if hoff1 : off + 1 ≤ body.length then
          match decodeCString (body.drop (off + 1)) with
          | .err e => .err e
          | .oob => .oob
          | .ok str =>
            match errFields body (off + 1 + (str.length + 1)) with
            | .ok rest => .ok ((fieldType, str) :: rest)
            | .err e => .err e
            | .oob => .oob
        else .oob
  else .oob
termination_by body.length - off
decreasing_by
  have hne : body.drop off ≠ [] := by
    intro hnil
    rw [hnil] at hft
    simp [decodeUint8] at hft
  have hlt : off < body.length := by
    rcases Nat.lt_or_ge off body.length with h | h
    · exact h
    · exact absurd (List.drop_eq_nil_of_le h) hne
  omega

/-- Embeds `parseErrorResponseMessage` (resultset.go). -/
def parseErrorResponseMessage (body : ByteStr) : DecodeResult IncomingMessage :=
  match errFields body 0 with
  | .ok fs => .ok (.errorResponse fs)
  | .err e => .err e
  | .oob => .oob

/-- Embeds `parseEmptyQueryMessage` (resultset.go): always succeeds. -/
def parseEmptyQueryMessage (_body : ByteStr) : DecodeResult IncomingMessage :=
  .ok .emptyQuery

/-- Embeds `EmptyQueryMessage.Error()` (resultset.go): the fixed message string. -/
def EmptyQueryMessage.Error : String := "The provided SQL string was empty"

/-- Embeds `EmptyQueryMessage.Code()` (resultset.go): the empty string. -/
def EmptyQueryMessage.Code : String := ""

/-- Embeds `parseAuthenticationRequestMessage` (resultset.go): 4-byte auth code,
`Salt` is never filled in. -/
def parseAuthenticationRequestMessage (body : ByteStr) : DecodeResult IncomingMessage :=
  match decodeUint32 body with
  | .ok code => .ok (.authenticationRequest code [])
  | .err e => .err e
  | .oob => .oob

/-- Embeds `parseReadyForQueryMessage` (resultset.go): 1-byte transaction status. -/
def parseReadyForQueryMessage (body : ByteStr) : DecodeResult IncomingMessage :=
  match decodeUint8 body with
  | .ok ts => .ok (.readyForQuery ts)
  | .err e => .err e
  | .oob => .oob

/-- Embeds `parseParameterStatusMessage` (resultset.go): two C strings
(name, value), the second read at offset `len(name) + 1`. -/
def parseParameterStatusMessage (body : ByteStr) : DecodeResult IncomingMessage :=
  match goDrop body 0 with
  | .err e => .err e
  | .oob => .oob
  | .ok sl0 =>
    match decodeCString sl0 with
    | .err e => .err e
    | .oob => .oob
    | .ok name =>
      match goDrop body (name.length + 1) with
      | .err e => .err e
      | .oob => .oob
      | .ok sl1 =>
        match decodeCString sl1 with
        | .err e => .err e
        | .oob => .oob
        | .ok value => .ok (.parameterStatus name value)

/-- Embeds `parseBackendKeyDataMessage` (resultset.go): 4-byte pid, then 4-byte
key read from `body[4:]`. -/
def parseBackendKeyDataMessage (body : ByteStr) : DecodeResult IncomingMessage :=
  match decodeUint32 body with
  | .err e => .err e
  | .oob => .oob
  | .ok pid =>
    match goDrop body 4 with
    | .err e => .err e
    | .oob => .oob
    | .ok sl =>
      match decodeUint32 sl with
      | .err e => .err e
      | .oob => .oob
      | .ok key => .ok (.backendKeyData pid key)

/-- Embeds `parseCommandCompleteMessage` (resultset.go): one C string. -/
def parseCommandCompleteMessage (body : ByteStr) : DecodeResult IncomingMessage :=
  match decodeCString body with
  | .err e => .err e
  | .oob => .oob
  | .ok s => .ok (.commandComplete s)

/-- Per-field loop of `parseRowDescriptionMessage` (resultset.go): C-string
name, then u32 table OID, u16 attribute number, u32 type OID, u16 type
size, u32 type modifier, u16 format code, offsets advanced exactly by
the bytes consumed. -/
def rowDescFields (body : ByteStr) (off : Nat) : Nat → DecodeResult (List Field)
  | 0 => .ok []
  | n + 1 =>
    match goDrop body off with
    | .err e => .err e
    | .oob => .oob
    | .ok sl =>
      match decodeCString sl with
      | .err e => .err e
      | .oob => .oob
      | .ok name =>
        match goDrop body (off + (name.length + 1)) with
        | .err e => .err e
        | .oob => .oob
        | .ok sl =>
          match decodeUint32 sl with
          | .err e => .err e
          | .oob => .oob
          | .ok tableOID =>
            match goDrop body (off + (name.length + 1) + 4) with
            | .err e => .err e
            | .oob => .oob
            | .ok sl =>
              match decodeUint16 sl with
              | .err e => .err e
              | .oob => .oob
              | .ok attrNum =>
                match goDrop body (off + (name.length + 1) + 4 + 2) with
                | .err e => .err e
                | .oob => .oob
                | .ok sl =>
                  match decodeUint32 sl with
                  | .err e => .err e
                  | .oob => .oob
                  | .ok typeOID =>
                    match goDrop body (off + (name.length + 1) + 4 + 2 + 4) with
                    | .err e => .err e
                    | .oob => .oob
                    | .ok sl =>
                      match decodeUint16 sl with
                      | .err e => .err e
                      | .oob => .oob
                      | .ok typeSize =>
                        match goDrop body (off + (name.length + 1) + 4 + 2 + 4 + 2) with
                        | .err e => .err e
                        | .oob => .oob
                        | .ok sl =>
                          match decodeUint32 sl with
                          | .err e => .err e
                          | .oob => .oob
                          | .ok typeMod =>
                            match goDrop body (off + (name.length + 1) + 4 + 2 + 4 + 2 + 4) with
                            | .err e => .err e
                            | .oob => .oob
                            | .ok sl =>
                              match decodeUint16 sl with
                              | .err e => .err e
                              | .oob => .oob
                              | .ok fmtCode =>
                                match rowDescFields body
                                    (off + (name.length + 1) + 4 + 2 + 4 + 2 + 4 + 2) n with
                                | .err e => .err e
                                | .oob => .oob
                                | .ok rest =>
                                  .ok ({ Name := name, TableOID := tableOID,
                                         AttributeNumber := attrNum,
                                         DataTypeOID := typeOID,
                                         DataTypeSize := typeSize,
                                         TypeModifier := typeMod,
                                         FormatCode := fmtCode } :: rest)

/-- Embeds `parseRowDescriptionMessage` (resultset.go): 2-byte field count, then
that many field descriptors starting at offset 2. -/
def parseRowDescriptionMessage (body : ByteStr) : DecodeResult IncomingMessage :=
  match decodeUint16 body with
  | .err e => .err e
  | .oob => .oob
  | .ok numFields =>
    match rowDescFields body 2 numFields with
    | .err e => .err e
    | .oob => .oob
    | .ok fs => .ok (.rowDescription fs)

/-- Per-value loop of `parseDataRowMessage` (resultset.go): 4-byte length;
`0xffffffff` means NULL (`none`); otherwise the check
`offset + size > len(body)` yields the truncation error, else the value
is the slice `body[offset : offset+size]`. -/
def dataRowValues (body : ByteStr) (off : Nat) : Nat → DecodeResult (List (Option ByteStr))
  | 0 => .ok []
  | n + 1 =>
    match goDrop body off with
    | .err e => .err e
    | .oob => .oob
    | .ok sl =>
      match decodeUint32 sl with
      | .err e => .err e
      | .oob => .oob
      | .ok size =>
        if size = 0xffffffff then
          match dataRowValues body (off + 4) n with
          | .err e => .err e
          | .oob => .oob
          | .ok rest => .ok (none :: rest)
        else
          if off + 4 + size > body.length then .err "parseDataRowMessage: truncated message"
          else
            match goSlice body (off + 4) (off + 4 + size) with
            | .err e => .err e
            | .oob => .oob
            | .ok v =>
              match dataRowValues body (off + 4 + size) n with
              | .err e => .err e
              | .oob => .oob
              | .ok rest => .ok (some v :: rest)

/-- Embeds `parseDataRowMessage` (resultset.go): 2-byte value count, then that
many values starting at offset 2. -/
def parseDataRowMessage (body : ByteStr) : DecodeResult IncomingMessage :=
  match decodeUint16 body with
  | .err e => .err e
  | .oob => .oob
  | .ok numValues =>
    match dataRowValues body 2 numValues with
    | .err e => .err e
    | .oob => .oob
    | .ok vs => .ok (.dataRow vs)

/-- Embeds `messageFactoryMethods` (resultset.go): tag byte to parse function;
`none` for a tag outside the recognized set. -/
def messageFactoryMethods (tag : Nat) : Option (ByteStr → DecodeResult IncomingMessage) :=
  if tag = 82 then some parseAuthenticationRequestMessage      -- 'R'
  else if tag = 90 then some parseReadyForQueryMessage         -- 'Z'
  else if tag = 69 then some parseErrorResponseMessage         -- 'E'
  else if tag = 73 then some parseEmptyQueryMessage            -- 'I'
  else if tag = 83 then some parseParameterStatusMessage       -- 'S'
  else if tag = 75 then some parseBackendKeyDataMessage        -- 'K'
  else if tag = 84 then some parseRowDescriptionMessage        -- 'T'
  else if tag = 67 then some parseCommandCompleteMessage       -- 'C'
  else if tag = 68 then some parseDataRowMessage               -- 'D'
  else none

/-- The panic string of `receiveMessage` for an unrecognized tag byte
(Go: `fmt.Sprintf("Unknown message type: %c", messageType)`). -/
def unknownTagPanic (tag : Nat) : String :=
  "Unknown message type: " ++ (Char.ofNat tag).toString

/-- Outcome of one `receiveMessage` call on a byte stream: a decoded
message plus the unconsumed stream, a returned error (I/O failure,
short-length protocol violation, or a parse error), a string-valued
panic (unknown tag), or an out-of-bounds runtime panic. -/
inductive RecvOut where
  | ok (m : IncomingMessage) (rest : ByteStr)
  | errS (e : String)
  | panicStr (s : String)
  | oobOut
deriving DecidableEq, Repr

/-- Embeds `receiveMessage` (resultset.go) on a byte stream: read a 5-byte
header (short read is a returned I/O error), compute the body length as
`messageSize - 4` after rejecting `messageSize < 4`, read the body
(short read is a returned I/O error), then dispatch on the tag —
panicking with a string for an unknown tag. -/
def receiveMessage (input : ByteStr) : RecvOut :=
  if input.length < 5 then .errS "io: short header read"
  else
    let messageType := input.getD 0 0
    let messageSize := unpackUint32 ((input.drop 1).take 4)
    if messageSize ≥ 4 then
      let bodyLen := messageSize - 4
      if (input.drop 5).length < bodyLen then .errS "io: short body read"
      else
        let messageContent := (input.drop 5).take bodyLen
        match messageFactoryMethods messageType with
        | none => .panicStr (unknownTagPanic messageType)
        | some f =>
          match f messageContent with
          | .ok m => .ok m (input.drop (5 + bodyLen))
          | .err e => .errS e
          | .oob => .oobOut
    else .errS "A message should be at least 4 bytes long"

/-! ### Connection state machine (connection.go)

The connection layer consumes the stream through `Connection.receiveMessage`,
which wraps the frame reader: a frame either decodes to a message, or the
returned error / the reader's string panic unwinds the current public
operation.  A scripted run is therefore a list of `RecvItem`s, one per
`receiveMessage` call.  Go panic values are either `error`-typed (recovered
cleanly by `r.(error)` at the top of `Connect`/`Query`/`Close`) or plain
strings (on which `r.(error)` itself panics, crashing the program). -/

/-- A Go `error` value as it flows through the connection layer: either a
plain error (by its message string) or an incoming message used as an
error value (`ErrorResponseMessage` / `EmptyQueryMessage`). -/
inductive GoErr where
  | errStr (s : String)
  | errMsg (m : IncomingMessage)
deriving DecidableEq, Repr

/-- A Go panic value: an `error`-typed value or a plain string. -/
inductive PanicVal where
  | errVal (e : GoErr)
  | strVal (s : String)
deriving DecidableEq, Repr

/-- One outcome of `Connection.receiveMessage` (connection.go): the frame
reader either produces a message, or the operation unwinds — with an
error value when `ReadMessage` returned an error (`panic(err)`), or with
a string when the reader itself panicked on an unknown tag. -/
inductive RecvItem where
  | msg (m : IncomingMessage)
  | panicErr (e : GoErr)
  | panicStr (s : String)
deriving DecidableEq, Repr

/-- The state of the owned socket: `none` = no socket (`nil`),
`some true` = open, `some false` = closed. -/
abbrev SocketState := Option Bool

/-- Embeds `Connection` (connection.go): session fields guarded by the
connection mutex.  `parameters` is the Go map embedded as its assignment
sequence; `parametersGet` takes the last binding (map overwrite). -/
structure Connection where
  socket : SocketState
  parameters : List (ByteStr × ByteStr)
  backendPid : Nat
  backendKey : Nat
  transactionStatus : Nat
deriving DecidableEq, Repr

/-- Go map assignment `m[k] = v` on the embedded assignment list. -/
def mapPut (m : List (ByteStr × ByteStr)) (k v : ByteStr) : List (ByteStr × ByteStr) :=
  m ++ [(k, v)]

/-- Go map lookup `m[k]`: the last binding for `k`, if any. -/
def parametersGet (m : List (ByteStr × ByteStr)) (k : ByteStr) : Option ByteStr :=
  (m.filter (fun p => p.1 = k)).getLast?.map (·.2)

/-- Modelled from the spec: `SendMessage` (messages.go, not under src/)
encodes an outgoing message and writes the frame; per §4.1 encoding
"never fails for well-formed inputs", so a send fails exactly when the
transport write fails — i.e. when the socket is not an open socket
(closed or nil).  `Connection.sendMessage` panics with that error. -/
def sendFails (s : SocketState) : Bool :=
  s ≠ some true

/-- The error value carried by a failing transport write. -/
def sendErr : GoErr := .errStr "write: connection not open"

/-- The recovered panic value of a nil-pointer dereference (Go runtime
errors implement `error`, so `r.(error)` succeeds on them). -/
def nilDerefErr : GoErr :=
  .errStr "runtime error: invalid memory address or nil pointer dereference"

/-- The panic string of `handleStatelessMessage` for a message that is
neither parameter-status nor backend-key-data (Go:
`panic(fmt.Sprintf("Unexpected message: %#+v", msg))`; the Go-syntax
dump of the value is not reproduced). -/
def unexpectedMessagePanic : String := "Unexpected message"

/-- Embeds `resetConnection` (connection.go): close the socket if there is one,
replace `parameters` with a fresh empty map, zero `backendPid` and
`backendKey`.  `transactionStatus` is not touched. -/
def resetConnection (c : Connection) : Connection :=
  { c with
    socket := match c.socket with | none => none | some _ => some false
    parameters := []
    backendPid := 0
    backendKey := 0 }

/-- Embeds `Connection.Close` (connection.go): send the terminate message —
a panic there is recovered into the returned error — then
`resetConnection` runs unconditionally (deferred first, so it runs
last). -/
def Close (c : Connection) : Connection × Option GoErr :=
  if sendFails c.socket then (resetConnection c, some sendErr)
  else (resetConnection c, none)

/-- Embeds `Row` (resultset.go). -/
structure Row where
  Values : List (Option ByteStr)
deriving DecidableEq, Repr

/-- Embeds `Resultset` (resultset.go). -/
structure Resultset where
  Fields : List Field
  Rows : List Row
  Result : ByteStr
deriving DecidableEq, Repr

/-- Outcome of the receive loop inside `Query`. -/
inductive LoopOut where
  | done (c : Connection) (rs : Option Resultset) (qe : Option GoErr)
  | panicked (c : Connection) (rs : Option Resultset) (v : PanicVal)
deriving DecidableEq, Repr

/-- The receive loop of `Connection.Query` (connection.go):
`isReadyForQuery` is tested first on every message (recording the
transaction status and ending the loop on ready-for-query); otherwise
empty-query / error-response messages are recorded as the query error,
row-description starts a fresh resultset, data-row and command-complete
dereference the current resultset (a nil dereference when none exists),
and anything else goes to `handleStatelessMessage` — which merges
parameter-status / backend-key-data into the session and panics with a
string on any other message.  An exhausted script is an EOF from the
transport, returned as an error by the reader and re-panicked. -/
def queryLoop (c : Connection) (rs : Option Resultset) (qe : Option GoErr) :
    List RecvItem → LoopOut
  | [] => .panicked c rs (.errVal (.errStr "EOF"))
  | item :: rest =>
    match item with
    | .panicErr e => .panicked c rs (.errVal e)
    | .panicStr s => .panicked c rs (.strVal s)
    | .msg m =>
      match m with
      | .readyForQuery ts => .done { c with transactionStatus := ts } rs qe
      | .emptyQuery => queryLoop c rs (some (.errMsg .emptyQuery)) rest
      | .errorResponse fs => queryLoop c rs (some (.errMsg (.errorResponse fs))) rest
      | .rowDescription fs =>
        queryLoop c (some { Fields := fs, Rows := [], Result := [] }) qe rest
      | .dataRow vs =>
        match rs with
        | none => .panicked c none (.errVal nilDerefErr)
        | some r =>
          queryLoop c (some { r with Rows := r.Rows ++ [{ Values := vs }] }) qe rest
      | .commandComplete res =>
        match rs with
        | none => .panicked c none (.errVal nilDerefErr)
        | some r => queryLoop c (some { r with Result := res }) qe rest
      | .parameterStatus n v =>
        queryLoop { c with parameters := mapPut c.parameters n v } rs qe rest
      | .backendKeyData pid key =>
        queryLoop { c with backendPid := pid, backendKey := key } rs qe rest
      | .authenticationRequest _ _ => .panicked c rs (.strVal unexpectedMessagePanic)

/-- Result of `Connection.Query`: `ok` — the loop reached
ready-for-query and the accumulated resultset / recorded error are
returned; `fatal` — a panic carrying an error value was recovered, the
connection was closed (`c.Close()`), and the error is returned (the
resultset named return keeps whatever it held); `crash` — a panic
carrying a string was recovered but `r.(error)` failed, so the program
aborts with an unrecovered panic (after `c.Close()` already ran). -/
inductive QueryResult where
  | ok (c : Connection) (rs : Option Resultset) (qe : Option GoErr)
  | fatal (c : Connection) (rs : Option Resultset) (e : GoErr)
  | crash (c : Connection) (s : String)
deriving DecidableEq, Repr

/-- Embeds `Connection.Query` (connection.go) on a scripted stream: send the
query message (a send failure panics and is recovered into a fatal
outcome), then run the receive loop until ready-for-query. -/
def Query (c : Connection) (script : List RecvItem) : QueryResult :=
  if sendFails c.socket then .fatal (Close c).1 none sendErr
  else
    match queryLoop c none none script with
    | .done c' rs qe => .ok c' rs qe
    | .panicked c' rs (.errVal e) => .fatal (Close c').1 rs e
    | .panicked c' rs (.strVal s) => .crash (Close c').1 s

/-- Modelled from the spec: the authentication codes (messages.go, not
under src/).  §4.2 distinguishes the "OK" code and the "cleartext
password" code; their concrete values (0 and 3 in the Postgres-derived
protocol) only matter through being distinct. -/
def AuthenticationOK : Nat := 0

/-- Modelled from the spec: the cleartext-password authentication code
(messages.go, not under src/). -/
def AuthenticationCleartextPassword : Nat := 3

/-- The error value `AuthenticationMethodNotSupported` (connection.go). -/
def authMethodNotSupportedErr : GoErr :=
  .errStr "Authentication method not supported"

/-- Outcome of the handshake loop inside `initConnection`. -/
inductive InitOut where
  | done (c : Connection)
  | panicked (c : Connection) (v : PanicVal)
deriving DecidableEq, Repr

/-- The receive loop of `Connection.initConnection` (connection.go):
ready-for-query records the transaction status and ends the loop; an
authentication challenge continues on OK, answers a cleartext-password
challenge with a password message, and panics with the unsupported-
method error otherwise; an error response panics with the message as
the error value; everything else goes to `handleStatelessMessage`. -/
def initLoop (c : Connection) : List RecvItem → InitOut
  | [] => .panicked c (.errVal (.errStr "EOF"))
  | item :: rest =>
    match item with
    | .panicErr e => .panicked c (.errVal e)
    | .panicStr s => .panicked c (.strVal s)
    | .msg m =>
      match m with
      | .readyForQuery ts => .done { c with transactionStatus := ts }
      | .authenticationRequest code _ =>
        if code = AuthenticationOK then initLoop c rest
        else if code = AuthenticationCleartextPassword then
          if sendFails c.socket then .panicked c (.errVal sendErr)
          else initLoop c rest
        else .panicked c (.errVal authMethodNotSupportedErr)
      | .errorResponse fs => .panicked c (.errVal (.errMsg (.errorResponse fs)))
      | .parameterStatus n v =>
        initLoop { c with parameters := mapPut c.parameters n v } rest
      | .backendKeyData pid key =>
        initLoop { c with backendPid := pid, backendKey := key } rest
      | _ => .panicked c (.strVal unexpectedMessagePanic)

/-- Result of `Connect`: a ready connection, a recovered error (after
`resetConnection`), or a program crash on a string-valued panic. -/
inductive ConnectResult where
  | ok (c : Connection)
  | err (c : Connection) (e : GoErr)
  | crash (c : Connection) (s : String)
deriving DecidableEq, Repr

/-- Embeds `Connect` (connection.go) for a scripted run with no TLS configured:
the TCP dial (external I/O) succeeds yielding an open socket, the SSL
branch is skipped, `parameters` is initialized to a fresh empty map,
the startup message is sent, and the handshake loop runs; a recovered
panic resets the connection and returns the panic's error value. -/
def Connect (script : List RecvItem) : ConnectResult :=
  let c0 : Connection :=
    { socket := some true, parameters := [], backendPid := 0, backendKey := 0,
      transactionStatus := 0 }
  if sendFails c0.socket then .err (resetConnection c0) sendErr
  else
    match initLoop c0 script with
    | .done c' => .ok c'
    | .panicked c' (.errVal e) => .err (resetConnection c') e
    | .panicked c' (.strVal s) => .crash c' s

/-! ### Predicates and helpers used by the theorem statements -/

/-- The two message kinds `handleStatelessMessage` merges into session
state without panicking: parameter status and backend key data. -/
def statelessOK (m : IncomingMessage) : Prop :=
  (∃ n v, m = .parameterStatus n v) ∨ (∃ p k, m = .backendKeyData p k)

/-- Effect of a run of stateless messages on the session fields, as
`handleStatelessMessage` applies them (messages of other kinds are left
unused by the theorems, which restrict to `statelessOK` runs). -/
def applyStateless (c : Connection) : List IncomingMessage → Connection
  | [] => c
  | .parameterStatus n v :: rest =>
    applyStateless { c with parameters := mapPut c.parameters n v } rest
  | .backendKeyData pid key :: rest =>
    applyStateless { c with backendPid := pid, backendKey := key } rest
  | _ :: rest => applyStateless c rest

/-- A valid row-description/data-row sequence: every data row carries
exactly one value per field of the most recent row description
(`cur` tracks the current field count, `none` before any description). -/
def validSeq : Option Nat → List RecvItem → Prop
  | _, [] => True
  | cur, .msg (.dataRow vs) :: rest =>
    (∃ k, cur = some k ∧ vs.length = k) ∧ validSeq cur rest
  | _, .msg (.rowDescription fs) :: rest => validSeq (some fs.length) rest
  | cur, _ :: rest => validSeq cur rest

/-- The resultset invariant of the spec: every row has one value per
field. -/
def rowsMatch (rs : Resultset) : Prop :=
  ∀ r ∈ rs.Rows, r.Values.length = rs.Fields.length

/-! ### Theorems -/

/-- C2: for the scripted handshake AuthenticationOK, then
ParameterStatus("x","1"), then BackendKeyData(42,99), then
ReadyForQuery('I') with no TLS configured, Connect succeeds; the
resulting connection maps parameter "x" (byte 120) to "1" (byte 49),
has backendPid 42, backendKey 99, and transactionStatus 'I' (73). -/
theorem connect_scripted_handshake :
    Connect
      [.msg (.authenticationRequest AuthenticationOK []),
       .msg (.parameterStatus [120] [49]),
       .msg (.backendKeyData 42 99),
       .msg (.readyForQuery 73)] =
      .ok { socket := some true, parameters := [([120], [49])], backendPid := 42,
            backendKey := 99, transactionStatus := 73 } ∧
    parametersGet [([120], [49])] [120] = some [49] := by
  decide

/-- C5 (divergence exhibit): a command-complete message with no
preceding row-description dereferences the nil resultset, so Query
panics, tears the connection down, and returns the recovered runtime
error — it does not return a resultset carrying the result tag. -/
theorem query_command_complete_without_rows_fatal :
    Query
      { socket := some true, parameters := [([120], [49])], backendPid := 42,
        backendKey := 99, transactionStatus := 73 }
      [.msg (.commandComplete [67, 84]), .msg (.readyForQuery 73)] =
      .fatal
        { socket := some false, parameters := [], backendPid := 0,
          backendKey := 0, transactionStatus := 73 }
        none nilDerefErr := by
  decide

/-- C6 (divergence exhibit): a frame with the unrecognized tag byte 'X'
(88) makes the frame reader panic with a plain string; the recover
handler's `r.(error)` type assertion fails on a string, so Query aborts
with an unrecovered panic (a crash) instead of returning the failure as
its error result.  The frame is never skipped and no partial message is
produced. -/
theorem unknown_tag_crashes_query :
    receiveMessage [88, 0, 0, 0, 4] = .panicStr "Unknown message type: X" ∧
    Query
      { socket := some true, parameters := [([120], [49])], backendPid := 42,
        backendKey := 99, transactionStatus := 73 }
      [.panicStr "Unknown message type: X"] =
      .crash
        { socket := some false, parameters := [], backendPid := 0,
          backendKey := 0, transactionStatus := 73 }
        "Unknown message type: X" := by
  decide

/-- C8 (counterexample): the empty-query notice's message string is not
the claimed "the query string was empty". -/
theorem empty_query_message_string_differs :
    (EmptyQueryMessage.Error == "the query string was empty") = false := by
  decide

/-- C8 (amended): decoding the empty-query notice always succeeds; its
message string is exactly "The provided SQL string was empty" and its
code is the empty string; and the Query loop records it through the
same error channel as a server error response. -/
theorem empty_query_notice_spec :
    (∀ body, parseEmptyQueryMessage body = .ok .emptyQuery) ∧
    EmptyQueryMessage.Error = "The provided SQL string was empty" ∧
    EmptyQueryMessage.Code = "" ∧
    (∀ c rs qe rest, queryLoop c rs qe (.msg .emptyQuery :: rest) =
        queryLoop c rs (some (.errMsg .emptyQuery)) rest) := by
  refine ⟨fun _ => rfl, rfl, rfl, fun c rs qe rest => rfl⟩

/-- C4 (counterexample): after a fatal transport failure, Query tears
the connection down, but `transactionStatus` keeps its previous value
73 — it does not read as zero. -/
theorem query_fatal_keeps_transaction_status :
    Query
      { socket := some true, parameters := [([120], [49])], backendPid := 42,
        backendKey := 99, transactionStatus := 73 }
      [.panicErr (.errStr "read: connection reset")] =
      .fatal
        { socket := some false, parameters := [], backendPid := 0,
          backendKey := 0, transactionStatus := 73 }
        none (.errStr "read: connection reset") ∧
    ((73 : Nat) == 0) = false := by
  decide

/-- C3: in the data-row value loop, a 4-byte length field of
`0xFFFFFFFF` (bytes 255,255,255,255) yields an absent (`none`) value at
that position; a zero length yields a present empty value (`some []`),
distinct from `none`; and a declared length that would extend past the
end of the body fails with the truncated-message error. -/
theorem data_row_null_and_truncation :
    (∀ (body : ByteStr) (off n : Nat) (tail : ByteStr),
      body.drop off = 255 :: 255 :: 255 :: 255 :: tail →
      ∀ vs, dataRowValues body off (n + 1) = .ok vs → vs.head? = some none) ∧
    (∀ (body : ByteStr) (off n : Nat) (tail : ByteStr),
      body.drop off = 0 :: 0 :: 0 :: 0 :: tail →
      ∀ vs, dataRowValues body off (n + 1) = .ok vs → vs.head? = some (some [])) ∧
    (∀ (body : ByteStr) (off n size : Nat),
      off + 4 ≤ body.length →
      unpackUint32 (body.drop off) = size →
      size ≠ 0xffffffff →
      off + 4 + size > body.length →
      dataRowValues body off (n + 1) = .err "parseDataRowMessage: truncated message") := by
  refine ⟨?_, ?_, ?_⟩
  · intro body off n tail hdrop vs hvs
    have hofflt : off ≤ body.length := by
      by_contra hgt
      rw [List.drop_eq_nil_of_le (by omega)] at hdrop
      exact absurd hdrop (by simp)
    have heq : dataRowValues body off (n + 1) =
        (match dataRowValues body (off + 4) n with
         | .ok rest => .ok (none :: rest)
         | .err e => .err e
         | .oob => .oob) := by
      simp only [dataRowValues, goDrop, if_pos hofflt, hdrop, decodeUint32]
      rw [if_neg (by simp)]
      have hsENT : unpackUint32 (255 :: 255 :: 255 :: 255 :: tail) = 4294967295 := by
        norm_num [unpackUint32]
      rw [hsENT]
      dsimp only
      rw [if_pos rfl]
      cases dataRowValues body (off + 4) n <;> rfl
    rw [heq] at hvs
    cases hrec : dataRowValues body (off + 4) n with
    | ok rest => rw [hrec] at hvs; simp only [DecodeResult.ok.injEq] at hvs; rw [← hvs]; rfl
    | err e => rw [hrec] at hvs; exact absurd hvs (by simp)
    | oob => rw [hrec] at hvs; exact absurd hvs (by simp)
  · intro body off n tail hdrop vs hvs
    have hofflt : off ≤ body.length := by
      by_contra hgt
      rw [List.drop_eq_nil_of_le (by omega)] at hdrop
      exact absurd hdrop (by simp)
    have hlen4 : (body.drop off).length = tail.length + 4 := by rw [hdrop]; simp
    have hofflen : off + 4 ≤ body.length := by
      rw [List.length_drop] at hlen4; omega
    have heq : dataRowValues body off (n + 1) =
        (match dataRowValues body (off + 4 + 0) n with
         | .ok rest => .ok (some ((body.drop (off + 4)).take 0) :: rest)
         | .err e => .err e
         | .oob => .oob) := by
      simp only [dataRowValues, goDrop, if_pos hofflt, hdrop, decodeUint32]
      rw [if_neg (by simp)]
      have hs0 : unpackUint32 (0 :: 0 :: 0 :: 0 :: tail) = 0 := by
        norm_num [unpackUint32]
      rw [hs0]
      dsimp only
      rw [if_neg (by decide), if_neg (by omega)]
      simp only [goSlice]
      rw [if_pos (by omega)]
      dsimp only
      rw [show off + 4 + 0 - (off + 4) = 0 by omega]
      cases dataRowValues body (off + 4 + 0) n <;> rfl
    rw [heq] at hvs
    cases hrec : dataRowValues body (off + 4 + 0) n with
    | ok rest =>
      rw [hrec] at hvs
      simp only [DecodeResult.ok.injEq] at hvs
      rw [← hvs]; simp
    | err e => rw [hrec] at hvs; exact absurd hvs (by simp)
    | oob => rw [hrec] at hvs; exact absurd hvs (by simp)
  · intro body off n size hofflen hsz hsent htrunc
    have hofflt : off ≤ body.length := by omega
    have hdlen : ¬ (body.drop off).length < 4 := by
      rw [List.length_drop]; omega
    simp only [dataRowValues, goDrop, if_pos hofflt, decodeUint32]
    rw [if_neg hdlen, hsz]
    dsimp only
    rw [if_neg hsent, if_pos htrunc]

/-- C3 witness: the three parts at concrete inputs. -/
theorem data_row_null_and_truncation_witness :
    ([none] : List (Option ByteStr)).head? = some none ∧
    ([some []] : List (Option ByteStr)).head? = some (some []) ∧
    dataRowValues [0, 0, 0, 5, 1] 0 1 = .err "parseDataRowMessage: truncated message" :=
  ⟨data_row_null_and_truncation.1 [255, 255, 255, 255] 0 0 [] (by decide) [none] (by decide),
   data_row_null_and_truncation.2.1 [0, 0, 0, 0] 0 0 [] (by decide) [some []] (by decide),
   data_row_null_and_truncation.2.2 [0, 0, 0, 5, 1] 0 0 5 (by decide) (by decide)
     (by decide) (by decide)⟩

/-- C7: the body length is the declared 4-byte length minus 4: a declared
length below 4 makes frame reading fail with the protocol-violation
error, while a declared length of exactly 4 is accepted and the empty
body is handed to the tag's parse function. -/
theorem frame_length_minus_four :
    (∀ (tag b1 b2 b3 b4 : Nat) (rest : ByteStr),
      unpackUint32 [b1, b2, b3, b4] < 4 →
      receiveMessage (tag :: b1 :: b2 :: b3 :: b4 :: rest) =
        .errS "A message should be at least 4 bytes long") ∧
    (∀ (tag : Nat) (rest : ByteStr),
      receiveMessage (tag :: 0 :: 0 :: 0 :: 4 :: rest) =
        (match messageFactoryMethods tag with
         | none => .panicStr (unknownTagPanic tag)
         | some f =>
           match f [] with
           | .ok m => .ok m rest
           | .err e => .errS e
           | .oob => .oobOut)) := by
  constructor
  · intro tag b1 b2 b3 b4 rest h
    simp only [receiveMessage]
    rw [if_neg (by simp)]
    have hdt : ((tag :: b1 :: b2 :: b3 :: b4 :: rest).drop 1).take 4 = [b1, b2, b3, b4] := rfl
    rw [hdt, if_neg (by omega)]
  · intro tag rest
    simp only [receiveMessage]
    rw [if_neg (by simp)]
    have hdt : ((tag :: 0 :: 0 :: 0 :: 4 :: rest).drop 1).take 4 = [0, 0, 0, 4] := rfl
    rw [hdt]
    have h4 : unpackUint32 [0, 0, 0, 4] = 4 := by norm_num [unpackUint32]
    rw [h4, if_pos (by omega)]
    have hb : (4 : Nat) - 4 = 0 := rfl
    rw [hb]
    have hget : (tag :: 0 :: 0 :: 0 :: 4 :: rest).getD 0 0 = tag := rfl
    rw [if_neg (by simp), hget]
    have htk : ((tag :: 0 :: 0 :: 0 :: 4 :: rest).drop 5).take 0 = [] := rfl
    have hdr : (tag :: 0 :: 0 :: 0 :: 4 :: rest).drop (5 + 0) = rest := rfl
    rw [htk, hdr]

/-- C7 witness: a declared length of 3 (below 4) is rejected. -/
theorem frame_length_minus_four_witness :
    unpackUint32 [0, 0, 0, 3] < 4 ∧
    receiveMessage [73, 0, 0, 0, 3] =
      .errS "A message should be at least 4 bytes long" :=
  ⟨by norm_num [unpackUint32],
   frame_length_minus_four.1 73 0 0 0 3 [] (by norm_num [unpackUint32])⟩

/-- The first component of `Close` is always the reset connection. -/
theorem Close_fst (c : Connection) : (Close c).1 = resetConnection c := by
  unfold Close; split <;> rfl

/-- Lemma: `resetConnection` is idempotent. -/
theorem resetConnection_idem (c : Connection) :
    resetConnection (resetConnection c) = resetConnection c := by
  rcases c with ⟨s, p, bp, bk, ts⟩
  cases s <;> rfl

/-- A reset connection's socket is not open, so sends on it fail. -/
theorem sendFails_resetConnection (c : Connection) :
    sendFails (resetConnection c).socket = true := by
  rcases c with ⟨s, p, bp, bk, ts⟩
  cases s <;> rfl

/-- The receive loop never changes `transactionStatus` before a panic
(only the final ready-for-query assigns it, and that ends the loop). -/
theorem queryLoop_panicked_transactionStatus :
    ∀ (script : List RecvItem) (c : Connection) (rs : Option Resultset)
      (qe : Option GoErr) (c' : Connection) (rs' : Option Resultset) (v : PanicVal),
      queryLoop c rs qe script = .panicked c' rs' v →
      c'.transactionStatus = c.transactionStatus := by
  intro script
  induction script with
  | nil =>
    intro c rs qe c' rs' v h
    simp only [queryLoop, LoopOut.panicked.injEq] at h
    rw [← h.1]
  | cons item rest ih =>
    intro c rs qe c' rs' v h
    cases item with
    | panicErr e =>
      simp only [queryLoop, LoopOut.panicked.injEq] at h
      rw [← h.1]
    | panicStr s =>
      simp only [queryLoop, LoopOut.panicked.injEq] at h
      rw [← h.1]
    | msg m =>
      cases m with
      | readyForQuery ts =>
        simp only [queryLoop] at h
        exact LoopOut.noConfusion h
      | emptyQuery =>
        simp only [queryLoop] at h
        exact ih _ _ _ _ _ _ h
      | errorResponse fs =>
        simp only [queryLoop] at h
        exact ih _ _ _ _ _ _ h
      | rowDescription fs =>
        simp only [queryLoop] at h
        exact ih _ _ _ _ _ _ h
      | dataRow vs =>
        cases rs with
        | none =>
          simp only [queryLoop, LoopOut.panicked.injEq] at h
          rw [← h.1]
        | some r =>
          simp only [queryLoop] at h
          exact ih _ _ _ _ _ _ h
      | commandComplete res =>
        cases rs with
        | none =>
          simp only [queryLoop, LoopOut.panicked.injEq] at h
          rw [← h.1]
        | some r =>
          simp only [queryLoop] at h
          exact ih _ _ _ _ _ _ h
      | parameterStatus n v0 =>
        simp only [queryLoop] at h
        exact ih { c with parameters := mapPut c.parameters n v0 } _ _ _ _ _ h
      | backendKeyData pid key =>
        simp only [queryLoop] at h
        exact ih { c with backendPid := pid, backendKey := key } _ _ _ _ _ h
      | authenticationRequest code salt =>
        simp only [queryLoop, LoopOut.panicked.injEq] at h
        rw [← h.1]

/-- C4 (amended): after any fatal failure from Query the connection is
torn down — the socket is no longer open, and `parameters`,
`backendPid` and `backendKey` read as their zero/empty values, while
`transactionStatus` retains its previous value; a subsequent Query on
the same connection reports a fatal error and a subsequent Close
reports an error. -/
theorem query_fatal_teardown
    (c : Connection) (script script2 : List RecvItem)
    (c' : Connection) (rs : Option Resultset) (e : GoErr)
    (h : Query c script = .fatal c' rs e) :
    c'.parameters = [] ∧ c'.backendPid = 0 ∧ c'.backendKey = 0 ∧
    sendFails c'.socket = true ∧
    c'.transactionStatus = c.transactionStatus ∧
    Query c' script2 = .fatal c' none sendErr ∧
    Close c' = (c', some sendErr) := by
  have main : ∃ c0 : Connection, c' = resetConnection c0 ∧
      c0.transactionStatus = c.transactionStatus := by
    unfold Query at h
    by_cases hs : sendFails c.socket = true
    · rw [if_pos hs] at h
      simp only [QueryResult.fatal.injEq] at h
      exact ⟨c, by rw [← h.1]; exact Close_fst c, rfl⟩
    · rw [if_neg hs] at h
      cases hloop : queryLoop c none none script with
      | done c2 rs2 qe2 => rw [hloop] at h; exact absurd h (by simp)
      | panicked c2 rs2 v =>
        cases v with
        | errVal e2 =>
          rw [hloop] at h
          simp only [QueryResult.fatal.injEq] at h
          exact ⟨c2, by rw [← h.1, Close_fst],
                 queryLoop_panicked_transactionStatus script c none none c2 rs2 _ hloop⟩
        | strVal s =>
          rw [hloop] at h; exact absurd h (by simp)
  obtain ⟨c0, hc', hts⟩ := main
  subst hc'
  refine ⟨rfl, rfl, rfl, sendFails_resetConnection c0, hts, ?_, ?_⟩
  · unfold Query
    rw [if_pos (sendFails_resetConnection c0), Close_fst, resetConnection_idem]
  · unfold Close
    rw [if_pos (sendFails_resetConnection c0), resetConnection_idem]

/-- C4 witness: a concrete fatal Query failure, with the teardown
conclusions evaluated at that connection. -/
theorem query_fatal_teardown_witness :
    Query
      { socket := some true, parameters := [([120], [49])], backendPid := 42, backendKey := 99, transactionStatus := 73 }
      [.panicErr (.errStr "read: connection reset")] =
      .fatal
        { socket := some false, parameters := [], backendPid := 0, backendKey := 0, transactionStatus := 73 }
        none (.errStr "read: connection reset") ∧
    (({ socket := some false, parameters := [], backendPid := 0, backendKey := 0, transactionStatus := 73 } : Connection).parameters = [] ∧
     ({ socket := some false, parameters := [], backendPid := 0, backendKey := 0, transactionStatus := 73 } : Connection).backendPid = 0 ∧
     ({ socket := some false, parameters := [], backendPid := 0, backendKey := 0, transactionStatus := 73 } : Connection).backendKey = 0 ∧
     sendFails ({ socket := some false, parameters := [], backendPid := 0, backendKey := 0, transactionStatus := 73 } : Connection).socket = true ∧
     ({ socket := some false, parameters := [], backendPid := 0, backendKey := 0, transactionStatus := 73 } : Connection).transactionStatus =
       ({ socket := some true, parameters := [([120], [49])], backendPid := 42, backendKey := 99, transactionStatus := 73 } : Connection).transactionStatus ∧
     Query { socket := some false, parameters := [], backendPid := 0, backendKey := 0, transactionStatus := 73 } [] =
       .fatal { socket := some false, parameters := [], backendPid := 0, backendKey := 0, transactionStatus := 73 } none sendErr ∧
     Close { socket := some false, parameters := [], backendPid := 0, backendKey := 0, transactionStatus := 73 } =
       ({ socket := some false, parameters := [], backendPid := 0, backendKey := 0, transactionStatus := 73 }, some sendErr)) :=
  ⟨by decide,
   query_fatal_teardown
     { socket := some true, parameters := [([120], [49])], backendPid := 42, backendKey := 99, transactionStatus := 73 }
     [.panicErr (.errStr "read: connection reset")] []
     { socket := some false, parameters := [], backendPid := 0, backendKey := 0, transactionStatus := 73 }
     none (.errStr "read: connection reset") (by decide)⟩

/-- Lemma: `applyStateless` never touches the socket. -/
theorem applyStateless_socket :
    ∀ (middle : List IncomingMessage) (c : Connection),
      (applyStateless c middle).socket = c.socket := by
  intro middle
  induction middle with
  | nil => intro c; rfl
  | cons m rest ih =>
    intro c
    cases m with
    | parameterStatus n v => exact ih { c with parameters := mapPut c.parameters n v }
    | backendKeyData pid key => exact ih { c with backendPid := pid, backendKey := key }
    | authenticationRequest code salt => exact ih c
    | readyForQuery ts => exact ih c
    | errorResponse fs => exact ih c
    | emptyQuery => exact ih c
    | commandComplete res => exact ih c
    | rowDescription fs => exact ih c
    | dataRow vs => exact ih c

/-- A run of stateless messages followed by ready-for-query ends the
receive loop with the session updates applied and the transaction
status recorded, leaving resultset and error untouched. -/
theorem queryLoop_stateless_run :
    ∀ (middle : List IncomingMessage), (∀ m ∈ middle, statelessOK m) →
    ∀ (c : Connection) (rs : Option Resultset) (qe : Option GoErr) (ts : Nat),
      queryLoop c rs qe (middle.map .msg ++ [.msg (.readyForQuery ts)]) =
        .done { applyStateless c middle with transactionStatus := ts } rs qe := by
  intro middle
  induction middle with
  | nil => intro _ c rs qe ts; rfl
  | cons m rest ih =>
    intro hM c rs qe ts
    rcases hM m (List.mem_cons_self m rest) with ⟨n, v, rfl⟩ | ⟨pid, key, rfl⟩
    · simpa [queryLoop, applyStateless] using
        ih (fun x hx => hM x (List.mem_cons_of_mem _ hx))
          { c with parameters := mapPut c.parameters n v } rs qe ts
    · simpa [queryLoop, applyStateless] using
        ih (fun x hx => hM x (List.mem_cons_of_mem _ hx))
          { c with backendPid := pid, backendKey := key } rs qe ts

/-- C1: when the server answers a query with an error response or the
empty-query notice, followed by stateless messages and then
ready-for-query, Query records the message as the query's error value,
keeps consuming until ready-for-query (the final transaction status is
recorded), returns a nil resultset together with that error, and leaves
the connection's socket open so that a following Query runs a normal
cycle. -/
theorem query_error_drains_and_stays_usable
    (c : Connection) (first : IncomingMessage) (middle : List IncomingMessage)
    (ts ts2 : Nat)
    (hOpen : c.socket = some true)
    (hFirst : first = .emptyQuery ∨ ∃ fs, first = .errorResponse fs)
    (hMid : ∀ m ∈ middle, statelessOK m) :
    Query c (.msg first :: (middle.map .msg ++ [.msg (.readyForQuery ts)])) =
      .ok { applyStateless c middle with transactionStatus := ts } none
        (some (.errMsg first)) ∧
    ({ applyStateless c middle with transactionStatus := ts } : Connection).socket =
      some true ∧
    Query { applyStateless c middle with transactionStatus := ts }
      [.msg (.readyForQuery ts2)] =
      .ok { applyStateless c middle with transactionStatus := ts2 } none none := by
  have hsock : (applyStateless c middle).socket = some true := by
    rw [applyStateless_socket middle c, hOpen]
  have hnf : sendFails c.socket = false := by
    rw [hOpen]; rfl
  refine ⟨?_, hsock, ?_⟩
  · unfold Query
    rw [hnf]
    simp only [Bool.false_eq_true, if_false]
    rcases hFirst with rfl | ⟨fs, rfl⟩
    · simp only [queryLoop]
      rw [queryLoop_stateless_run middle hMid c none (some (.errMsg .emptyQuery)) ts]
    · simp only [queryLoop]
      rw [queryLoop_stateless_run middle hMid c none
            (some (.errMsg (.errorResponse fs))) ts]
  · unfold Query
    have hnf2 : sendFails
        ({ applyStateless c middle with transactionStatus := ts } : Connection).socket =
        false := by
      show sendFails (applyStateless c middle).socket = false
      rw [hsock]; rfl
    rw [hnf2]
    simp only [Bool.false_eq_true, if_false, queryLoop]

/-- C1 witness: a concrete error-then-ready cycle after which the
connection runs the next query. -/
theorem query_error_drains_witness :
    Query
      { socket := some true, parameters := [([120], [49])], backendPid := 42,
        backendKey := 99, transactionStatus := 73 }
      (.msg .emptyQuery ::
        ([IncomingMessage.backendKeyData 7 8].map .msg ++
          [.msg (.readyForQuery 73)])) =
      .ok
        { applyStateless
            { socket := some true, parameters := [([120], [49])], backendPid := 42,
              backendKey := 99, transactionStatus := 73 }
            [IncomingMessage.backendKeyData 7 8] with transactionStatus := 73 }
        none (some (.errMsg .emptyQuery)) ∧
    ({ applyStateless
         { socket := some true, parameters := [([120], [49])], backendPid := 42,
           backendKey := 99, transactionStatus := 73 }
         [IncomingMessage.backendKeyData 7 8] with
       transactionStatus := 73 } : Connection).socket = some true ∧
    Query
      { applyStateless
          { socket := some true, parameters := [([120], [49])], backendPid := 42,
            backendKey := 99, transactionStatus := 73 }
          [IncomingMessage.backendKeyData 7 8] with transactionStatus := 73 }
      [.msg (.readyForQuery 84)] =
      .ok
        { applyStateless
            { socket := some true, parameters := [([120], [49])], backendPid := 42,
              backendKey := 99, transactionStatus := 73 }
            [IncomingMessage.backendKeyData 7 8] with transactionStatus := 84 }
        none none :=
  query_error_drains_and_stays_usable
    { socket := some true, parameters := [([120], [49])], backendPid := 42,
      backendKey := 99, transactionStatus := 73 }
    .emptyQuery [IncomingMessage.backendKeyData 7 8] 73 84 rfl (Or.inl rfl)
    (by
      intro m hm
      rw [List.mem_singleton] at hm
      subst hm
      exact Or.inr ⟨7, 8, rfl⟩)

/-- Invariant carried by the receive loop on valid sequences: the
current resultset (if any) has `cur` fields and all its rows match. -/
theorem queryLoop_validSeq :
    ∀ (script : List RecvItem) (c : Connection) (rs : Option Resultset)
      (qe : Option GoErr) (cur : Option Nat),
      (rs = none ∧ cur = none ∨
        ∃ r, rs = some r ∧ cur = some r.Fields.length ∧ rowsMatch r) →
      validSeq cur script →
      ∀ c' rs' qe', queryLoop c rs qe script = .done c' rs' qe' →
      (rs' = none ∨ ∃ r', rs' = some r' ∧ rowsMatch r') := by
  intro script
  induction script with
  | nil =>
    intro c rs qe cur hInv hV c' rs' qe' h
    simp only [queryLoop] at h
    exact LoopOut.noConfusion h
  | cons item rest ih =>
    intro c rs qe cur hInv hV c' rs' qe' h
    cases item with
    | panicErr e =>
      simp only [queryLoop] at h
      exact LoopOut.noConfusion h
    | panicStr s =>
      simp only [queryLoop] at h
      exact LoopOut.noConfusion h
    | msg m =>
      cases m with
      | readyForQuery ts =>
        simp only [queryLoop, LoopOut.done.injEq] at h
        rcases hInv with ⟨hrs, _⟩ | ⟨r, hrs, _, hrm⟩
        · left; rw [← h.2.1, hrs]
        · right; exact ⟨r, by rw [← h.2.1, hrs], hrm⟩
      | emptyQuery =>
        simp only [queryLoop] at h
        simp only [validSeq] at hV
        exact ih c rs _ cur hInv hV c' rs' qe' h
      | errorResponse fs =>
        simp only [queryLoop] at h
        simp only [validSeq] at hV
        exact ih c rs _ cur hInv hV c' rs' qe' h
      | rowDescription fs =>
        simp only [queryLoop] at h
        simp only [validSeq] at hV
        refine ih c _ qe (some fs.length) ?_ hV c' rs' qe' h
        exact Or.inr ⟨{ Fields := fs, Rows := [], Result := [] }, rfl, rfl,
          by intro r hr; exact absurd hr (List.not_mem_nil r)⟩
      | dataRow vs =>
        simp only [validSeq] at hV
        obtain ⟨⟨k, hcur, hk⟩, hV2⟩ := hV
        rcases hInv with ⟨hrs, hcn⟩ | ⟨r, hrs, hcr, hrm⟩
        · rw [hcn] at hcur; exact Option.noConfusion hcur
        · subst hrs
          simp only [queryLoop] at h
          rw [hcr] at hV2
          refine ih c _ qe (some r.Fields.length) ?_ hV2 c' rs' qe' h
          refine Or.inr ⟨{ r with Rows := r.Rows ++ [{ Values := vs }] }, rfl, rfl, ?_⟩
          intro row hrow
          simp only [List.mem_append, List.mem_singleton] at hrow
          rcases hrow with hold | rfl
          · exact hrm row hold
          · show vs.length = r.Fields.length
            rw [hcr] at hcur
            injection hcur with hcur'
            rw [hk, ← hcur']
      | commandComplete res =>
        cases rs with
        | none =>
          simp only [queryLoop] at h
          exact LoopOut.noConfusion h
        | some r =>
          simp only [queryLoop] at h
          simp only [validSeq] at hV
          rcases hInv with ⟨hrs, _⟩ | ⟨r0, hrs, hcr, hrm⟩
          · exact Option.noConfusion hrs
          · injection hrs with hrs'
            subst hrs'
            rw [hcr] at hV
            refine ih c _ qe (some r.Fields.length) ?_ hV c' rs' qe' h
            exact Or.inr ⟨{ r with Result := res }, rfl, rfl, hrm⟩
      | parameterStatus n v =>
        simp only [queryLoop] at h
        simp only [validSeq] at hV
        exact ih _ rs qe cur hInv hV c' rs' qe' h
      | backendKeyData pid key =>
        simp only [queryLoop] at h
        simp only [validSeq] at hV
        exact ih _ rs qe cur hInv hV c' rs' qe' h
      | authenticationRequest code salt =>
        simp only [queryLoop] at h
        exact LoopOut.noConfusion h

/-- C9: for every valid row-description/data-row sequence processed by
one Query call, every row of the returned resultset has exactly
`len(Fields)` values. -/
theorem query_rows_match_fields
    (c : Connection) (script : List RecvItem)
    (c' : Connection) (rs : Resultset) (qe : Option GoErr)
    (hValid : validSeq none script)
    (h : Query c script = .ok c' (some rs) qe) :
    rowsMatch rs := by
  unfold Query at h
  by_cases hs : sendFails c.socket = true
  · rw [if_pos hs] at h
    exact QueryResult.noConfusion h
  · rw [if_neg hs] at h
    cases hloop : queryLoop c none none script with
    | done c2 rs2 qe2 =>
      rw [hloop] at h
      simp only [QueryResult.ok.injEq] at h
      have := queryLoop_validSeq script c none none none (Or.inl ⟨rfl, rfl⟩) hValid
        c2 rs2 qe2 hloop
      rcases this with hnone | ⟨r', hr', hrm⟩
      · rw [hnone] at h
        exact Option.noConfusion h.2.1
      · rw [hr'] at h
        injection h.2.1 with hq
        rw [← hq]
        exact hrm
    | panicked c2 rs2 v =>
      rw [hloop] at h
      cases v with
      | errVal e2 => exact QueryResult.noConfusion h
      | strVal s2 => exact QueryResult.noConfusion h

/-- C9 witness: a concrete two-column cycle. -/
theorem query_rows_match_fields_witness :
    rowsMatch
      { Fields :=
          [{ Name := [110], TableOID := 0, AttributeNumber := 0, DataTypeOID := 0,
             DataTypeSize := 0, TypeModifier := 0, FormatCode := 0 },
           { Name := [109], TableOID := 0, AttributeNumber := 0, DataTypeOID := 0,
             DataTypeSize := 0, TypeModifier := 0, FormatCode := 0 }],
        Rows := [{ Values := [some [53], none] }], Result := [] } :=
  query_rows_match_fields
    { socket := some true, parameters := [], backendPid := 0, backendKey := 0,
      transactionStatus := 0 }
    [.msg (.rowDescription
        [{ Name := [110], TableOID := 0, AttributeNumber := 0, DataTypeOID := 0,
           DataTypeSize := 0, TypeModifier := 0, FormatCode := 0 },
         { Name := [109], TableOID := 0, AttributeNumber := 0, DataTypeOID := 0,
           DataTypeSize := 0, TypeModifier := 0, FormatCode := 0 }]),
     .msg (.dataRow [some [53], none]),
     .msg (.readyForQuery 73)]
    { socket := some true, parameters := [], backendPid := 0, backendKey := 0,
      transactionStatus := 73 }
    { Fields :=
        [{ Name := [110], TableOID := 0, AttributeNumber := 0, DataTypeOID := 0,
           DataTypeSize := 0, TypeModifier := 0, FormatCode := 0 },
         { Name := [109], TableOID := 0, AttributeNumber := 0, DataTypeOID := 0,
           DataTypeSize := 0, TypeModifier := 0, FormatCode := 0 }],
      Rows := [{ Values := [some [53], none] }], Result := [] }
    none
    (by exact ⟨⟨2, rfl, rfl⟩, trivial⟩)
    (by decide)

/-- Lemma: `decodeUint8` performs no slice access. -/
theorem decodeUint8_not_oob (p : ByteStr) : decodeUint8 p ≠ .oob := by
  unfold decodeUint8; split <;> simp

/-- Lemma: `decodeUint16` performs no slice access. -/
theorem decodeUint16_not_oob (p : ByteStr) : decodeUint16 p ≠ .oob := by
  unfold decodeUint16; split <;> simp

/-- Lemma: `decodeUint32` performs no slice access. -/
theorem decodeUint32_not_oob (p : ByteStr) : decodeUint32 p ≠ .oob := by
  unfold decodeUint32; split <;> simp

/-- A successful 1-byte read implies at least 1 byte was available. -/
theorem decodeUint8_ok_len {p : ByteStr} {v : Nat} (h : decodeUint8 p = .ok v) :
    1 ≤ p.length := by
  unfold decodeUint8 at h
  split at h
  · exact DecodeResult.noConfusion h
  · omega

/-- A successful 2-byte read implies at least 2 bytes were available. -/
theorem decodeUint16_ok_len {p : ByteStr} {v : Nat} (h : decodeUint16 p = .ok v) :
    2 ≤ p.length := by
  unfold decodeUint16 at h
  split at h
  · exact DecodeResult.noConfusion h
  · omega

/-- A successful 4-byte read implies at least 4 bytes were available. -/
theorem decodeUint32_ok_len {p : ByteStr} {v : Nat} (h : decodeUint32 p = .ok v) :
    4 ≤ p.length := by
  unfold decodeUint32 at h
  split at h
  · exact DecodeResult.noConfusion h
  · omega

/-- Lemma: `decodeCString` performs no slice access. -/
theorem decodeCString_not_oob : ∀ p : ByteStr, decodeCString p ≠ .oob := by
  intro p
  induction p with
  | nil => simp [decodeCString]
  | cons b rest ih =>
    simp only [decodeCString]
    split
    · simp
    · cases hcs : decodeCString rest with
      | ok s => simp
      | err e => simp
      | oob => exact absurd hcs ih

/-- A successful C-string read consumed the string and its terminator,
both inside the buffer. -/
theorem decodeCString_ok_length :
    ∀ (p s : ByteStr), decodeCString p = .ok s → s.length < p.length := by
  intro p
  induction p with
  | nil => intro s h; simp [decodeCString] at h
  | cons b rest ih =>
    intro s h
    simp only [decodeCString] at h
    split at h
    · injection h with h'
      rw [← h']
      simp
    · cases hcs : decodeCString rest with
      | ok s0 =>
        rw [hcs] at h
        injection h with h'
        rw [← h']
        have := ih s0 hcs
        simp only [List.length_cons]
        omega
      | err e => rw [hcs] at h; exact DecodeResult.noConfusion h
      | oob => exact absurd hcs (decodeCString_not_oob rest)

/-- The data-row value loop never slices out of bounds while the running
offset is inside the body. -/
theorem dataRowValues_safe :
    ∀ (n : Nat) (body : ByteStr) (off : Nat), off ≤ body.length →
      (dataRowValues body off n).safe = true := by
  intro n
  induction n with
  | zero => intro body off hoff; rfl
  | succ n ih =>
    intro body off hoff
    simp only [dataRowValues]
    rw [goDrop, if_pos hoff]
    dsimp only
    cases hdec : decodeUint32 (body.drop off) with
    | err e => rfl
    | oob => exact absurd hdec (decodeUint32_not_oob _)
    | ok size =>
      dsimp only
      have h4 := decodeUint32_ok_len hdec
      rw [List.length_drop] at h4
      by_cases hsent : size = 0xffffffff
      · rw [if_pos hsent]
        cases hrec : dataRowValues body (off + 4) n with
        | ok rest => rfl
        | err e => rfl
        | oob =>
          have hs := ih body (off + 4) (by omega)
          rw [hrec] at hs
          exact absurd hs (by simp [DecodeResult.safe])
      · rw [if_neg hsent]
        by_cases htr : off + 4 + size > body.length
        · rw [if_pos htr]; rfl
        · rw [if_neg htr]
          rw [goSlice, if_pos (by constructor <;> omega)]
          dsimp only
          cases hrec : dataRowValues body (off + 4 + size) n with
          | ok rest => rfl
          | err e => rfl
          | oob =>
            have hs := ih body (off + 4 + size) (by omega)
            rw [hrec] at hs
            exact absurd hs (by simp [DecodeResult.safe])

/-- The row-description field loop never slices out of bounds while the
running offset is inside the body. -/
theorem rowDescFields_safe :
    ∀ (n : Nat) (body : ByteStr) (off : Nat), off ≤ body.length →
      (rowDescFields body off n).safe = true := by
  intro n
  induction n with
  | zero => intro body off hoff; rfl
  | succ n ih =>
    intro body off hoff
    simp only [rowDescFields]
    rw [goDrop, if_pos hoff]
    dsimp only
    cases hname : decodeCString (body.drop off) with
    | err e => rfl
    | oob => exact absurd hname (decodeCString_not_oob _)
    | ok name =>
      dsimp only
      have hnl := decodeCString_ok_length _ _ hname
      rw [List.length_drop] at hnl
      rw [goDrop, if_pos (show off + (name.length + 1) ≤ body.length by omega)]
      dsimp only
      cases h1 : decodeUint32 (body.drop (off + (name.length + 1))) with
      | err e => rfl
      | oob => exact absurd h1 (decodeUint32_not_oob _)
      | ok tableOID =>
        dsimp only
        have hl1 := decodeUint32_ok_len h1
        rw [List.length_drop] at hl1
        rw [goDrop, if_pos (show off + (name.length + 1) + 4 ≤ body.length by omega)]
        dsimp only
        cases h2 : decodeUint16 (body.drop (off + (name.length + 1) + 4)) with
        | err e => rfl
        | oob => exact absurd h2 (decodeUint16_not_oob _)
        | ok attrNum =>
          dsimp only
          have hl2 := decodeUint16_ok_len h2
          rw [List.length_drop] at hl2
          rw [goDrop,
            if_pos (show off + (name.length + 1) + 4 + 2 ≤ body.length by omega)]
          dsimp only
          cases h3 : decodeUint32 (body.drop (off + (name.length + 1) + 4 + 2)) with
          | err e => rfl
          | oob => exact absurd h3 (decodeUint32_not_oob _)
          | ok typeOID =>
            dsimp only
            have hl3 := decodeUint32_ok_len h3
            rw [List.length_drop] at hl3
            rw [goDrop,
              if_pos (show off + (name.length + 1) + 4 + 2 + 4 ≤ body.length by omega)]
            dsimp only
            cases h4 : decodeUint16 (body.drop (off + (name.length + 1) + 4 + 2 + 4)) with
            | err e => rfl
            | oob => exact absurd h4 (decodeUint16_not_oob _)
            | ok typeSize =>
              dsimp only
              have hl4 := decodeUint16_ok_len h4
              rw [List.length_drop] at hl4
              rw [goDrop,
                if_pos (show off + (name.length + 1) + 4 + 2 + 4 + 2 ≤ body.length by
                  omega)]
              dsimp only
              cases h5 : decodeUint32
                  (body.drop (off + (name.length + 1) + 4 + 2 + 4 + 2)) with
              | err e => rfl
              | oob => exact absurd h5 (decodeUint32_not_oob _)
              | ok typeMod =>
                dsimp only
                have hl5 := decodeUint32_ok_len h5
                rw [List.length_drop] at hl5
                rw [goDrop,
                  if_pos (show off + (name.length + 1) + 4 + 2 + 4 + 2 + 4 ≤
                    body.length by omega)]
                dsimp only
                cases h6 : decodeUint16
                    (body.drop (off + (name.length + 1) + 4 + 2 + 4 + 2 + 4)) with
                | err e => rfl
                | oob => exact absurd h6 (decodeUint16_not_oob _)
                | ok fmtCode =>
                  dsimp only
                  have hl6 := decodeUint16_ok_len h6
                  rw [List.length_drop] at hl6
                  cases hrec : rowDescFields body
                      (off + (name.length + 1) + 4 + 2 + 4 + 2 + 4 + 2) n with
                  | ok rest => rfl
                  | err e => rfl
                  | oob =>
                    have hs := ih body
                      (off + (name.length + 1) + 4 + 2 + 4 + 2 + 4 + 2) (by omega)
                    rw [hrec] at hs
                    exact absurd hs (by simp [DecodeResult.safe])

/-- The error-response field loop never slices out of bounds while the
running offset is inside the body (strong induction on the remaining
byte count). -/
theorem errFields_safe (body : ByteStr) :
    ∀ (k off : Nat), body.length - off ≤ k → off ≤ body.length →
      (errFields body off).safe = true := by
  intro k
  induction k with
  | zero =>
    intro off hk hoff
    rw [errFields, dif_pos hoff]
    have hnil : body.drop off = [] := List.drop_eq_nil_of_le (by omega)
    rw [hnil]
    rfl
  | succ k ih =>
    intro off hk hoff
    rw [errFields, dif_pos hoff]
    cases h8 : decodeUint8 (body.drop off) with
    | err e => rfl
    | oob => exact absurd h8 (decodeUint8_not_oob _)
    | ok ft =>
      dsimp only
      by_cases hft : ft = 0
      · rw [if_pos hft]; rfl
      · rw [if_neg hft]
        have h1 := decodeUint8_ok_len h8
        rw [List.length_drop] at h1
        rw [dif_pos (show off + 1 ≤ body.length by omega)]
        cases hcs : decodeCString (body.drop (off + 1)) with
        | err e => rfl
        | oob => exact absurd hcs (decodeCString_not_oob _)
        | ok str =>
          dsimp only
          have hsl := decodeCString_ok_length _ _ hcs
          rw [List.length_drop] at hsl
          cases hrec : errFields body (off + 1 + (str.length + 1)) with
          | ok rest => rfl
          | err e => rfl
          | oob =>
            have hs := ih (off + 1 + (str.length + 1)) (by omega) (by omega)
            rw [hrec] at hs
            exact absurd hs (by simp [DecodeResult.safe])

/-- C10: every message parse function is total and guarded — for an
arbitrary body byte slice, none of the six parse functions ever
performs an out-of-bounds slice access; each returns a message or a
returned error. -/
theorem parse_functions_no_oob :
    (∀ body, (parseRowDescriptionMessage body).safe = true) ∧
    (∀ body, (parseDataRowMessage body).safe = true) ∧
    (∀ body, (parseErrorResponseMessage body).safe = true) ∧
    (∀ body, (parseParameterStatusMessage body).safe = true) ∧
    (∀ body, (parseBackendKeyDataMessage body).safe = true) ∧
    (∀ body, (parseCommandCompleteMessage body).safe = true) := by
  refine ⟨?_, ?_, ?_, ?_, ?_, ?_⟩
  · intro body
    unfold parseRowDescriptionMessage
    cases h16 : decodeUint16 body with
    | err e => rfl
    | oob => exact absurd h16 (decodeUint16_not_oob _)
    | ok numFields =>
      dsimp only
      have h2 := decodeUint16_ok_len h16
      cases hrd : rowDescFields body 2 numFields with
      | ok fs => rfl
      | err e => rfl
      | oob =>
        have hs := rowDescFields_safe numFields body 2 (by omega)
        rw [hrd] at hs
        exact absurd hs (by simp [DecodeResult.safe])
  · intro body
    unfold parseDataRowMessage
    cases h16 : decodeUint16 body with
    | err e => rfl
    | oob => exact absurd h16 (decodeUint16_not_oob _)
    | ok numValues =>
      dsimp only
      have h2 := decodeUint16_ok_len h16
      cases hdr : dataRowValues body 2 numValues with
      | ok vs => rfl
      | err e => rfl
      | oob =>
        have hs := dataRowValues_safe numValues body 2 (by omega)
        rw [hdr] at hs
        exact absurd hs (by simp [DecodeResult.safe])
  · intro body
    unfold parseErrorResponseMessage
    cases herr : errFields body 0 with
    | ok fs => rfl
    | err e => rfl
    | oob =>
      have hs := errFields_safe body body.length 0 (by omega) (by omega)
      rw [herr] at hs
      exact absurd hs (by simp [DecodeResult.safe])
  · intro body
    unfold parseParameterStatusMessage
    rw [goDrop, if_pos (Nat.zero_le _)]
    dsimp only
    cases hn : decodeCString (body.drop 0) with
    | err e => rfl
    | oob => exact absurd hn (decodeCString_not_oob _)
    | ok name =>
      dsimp only
      have hnl := decodeCString_ok_length _ _ hn
      rw [List.length_drop] at hnl
      rw [goDrop, if_pos (show name.length + 1 ≤ body.length by omega)]
      dsimp only
      cases hv : decodeCString (body.drop (name.length + 1)) with
      | err e => rfl
      | oob => exact absurd hv (decodeCString_not_oob _)
      | ok value => rfl
  · intro body
    unfold parseBackendKeyDataMessage
    cases h32 : decodeUint32 body with
    | err e => rfl
    | oob => exact absurd h32 (decodeUint32_not_oob _)
    | ok pid =>
      dsimp only
      have hl := decodeUint32_ok_len h32
      rw [goDrop, if_pos (show 4 ≤ body.length by omega)]
      dsimp only
      cases h32b : decodeUint32 (body.drop 4) with
      | err e => rfl
      | oob => exact absurd h32b (decodeUint32_not_oob _)
      | ok key => rfl
  · intro body
    unfold parseCommandCompleteMessage
    cases hc : decodeCString body with
    | err e => rfl
    | oob => exact absurd hc (decodeCString_not_oob _)
    | ok sres => rfl

end Vertigo
